import Mathlib

/-!
Shallow embedding of `src/axum/websocket/src/main.rs` (a shuttle axum
websocket example): a background publisher periodically probes an external
health endpoint, reads a shared connected-client counter, serializes a JSON
snapshot and sends it into a `tokio::sync::watch` channel; each websocket
connection clones the stored receiver, increments the counter, runs an
outbound relay loop and an inbound drain loop, aborts the loser of the race
and decrements the counter.

Library primitives the program leans on (`tokio::sync::watch`,
`serde_json::to_string`, `Result::is_ok`) are embedded by their documented
semantics; everything else is translated line by line from the source.
-/

namespace WsStatus

/-- Websocket message, after axum's `extract::ws::Message` enum (binary
payloads abstracted to byte lists). -/
inductive Message
| text (s : String)
| binary (payload : List Nat)
| ping (payload : List Nat)
| pong (payload : List Nat)
| close
deriving DecidableEq, Repr

/-- One result of `receiver.next().await` (line 121): `none` is end of
stream, `some (.error ())` a transport error, `some (.ok m)` a received
message. -/
abbrev ReadResult := Option (Except Unit Message)

/-- The `while let Some(Ok(Message::Text(text)))` head of the inbound drain
loop (line 121): `true` exactly when the loop body runs (and the loop
continues) for this read result. The body only prints the text; it has no
effect on connection state. -/
def drainLoopContinues : ReadResult → Bool
| some (.ok (.text _)) => true
| _ => false

/-- Read outcomes that are an end of stream or an error, the two outcomes
the spec names as the only loop-enders. -/
def readEndOrError : ReadResult → Bool
| none => true
| some (.error _) => true
| some (.ok _) => false

/-- Outcome of `client.get(uri).await` (line 59): hyper yields `Ok` for any
completed HTTP exchange (carrying its status code) and `Err` for a
transport-level failure (timeout, connection refused, TLS failure). -/
inductive ProbeOutcome
| completed (status : Nat)
| transportFailure
deriving DecidableEq, Repr

/-- `let is_up = is_up.is_ok()` (line 60): `Result::is_ok`, never looking at
the response, in particular not at its status code. -/
def probeIsUp : ProbeOutcome → Bool
| .completed _ => true
| .transportFailure => false

/-- The cell of a `tokio::sync::watch` channel: the single current value
plus a version bumped by every send. There is no queue. -/
structure WatchCell where
  value : Message
  version : Nat
deriving DecidableEq, Repr

/-- `tx.send(v)` on a watch channel: replace the value, bump the version.
It never waits for receivers, so slow subscribers cannot block it. -/
def WatchCell.send (c : WatchCell) (v : Message) : WatchCell :=
  ⟨v, c.version + 1⟩

/-- A sequence of sends performed while some receiver is not polling. -/
def WatchCell.sendAll (c : WatchCell) (vs : List Message) : WatchCell :=
  vs.foldl WatchCell.send c

/-- A `watch::Receiver`: remembers the newest version it has marked seen. -/
structure WReceiver where
  seen : Nat
deriving DecidableEq, Repr

/-- `Receiver::clone` (line 105, `state.rx.clone()`): per tokio, the clone
starts with the seen version of the receiver it was cloned from — not with
the version current at the time of the clone. -/
def WReceiver.cloneRx (rx : WReceiver) : WReceiver := ⟨rx.seen⟩

/-- `rx.changed().await` followed by `rx.borrow().clone()` (lines 110-111):
resolves as soon as the cell's version is strictly newer than the
receiver's seen version, yielding the current value and marking its version
seen; `none` while the receiver is up to date (`changed` still pending). -/
def WReceiver.awaitChange (rx : WReceiver) (c : WatchCell) :
    Option (Message × WReceiver) :=
  if rx.seen < c.version then some (c.value, ⟨c.version⟩) else none

/-- `watch::channel(Message::Text("{}".to_string()))` (line 43): the cell
starts at version 0 holding the placeholder text `{}`. -/
def initialCell : WatchCell := ⟨.text "\x7b\x7d", 0⟩

/-- The placeholder message stored in the channel at startup. -/
def placeholder : Message := .text "\x7b\x7d"

/-- The receiver returned by `watch::channel` and stored in `State`
(lines 43-48). It is only ever cloned, never read, so its seen version
stays at the initial version 0 for the whole process lifetime. -/
def stateRx : WReceiver := ⟨0⟩

/-- The receiver a fresh connection obtains (line 105): a clone of the
receiver stored in `State`. -/
def connectionRx : WReceiver := stateRx.cloneRx

/-- Registry events: `state.clients_count += 1` on upgrade (line 104) and
`state.clients_count -= 1` after the connection closes (line 133). Both run
under the `Mutex`, so the mutations are linearized. -/
inductive RegEvent
| connect
| disconnect
deriving DecidableEq, Repr

/-- Effect of one registry event on `clients_count : usize` (modelled as
`Nat`; `-= 1` is `Nat` subtraction, matching that usize cannot go below
zero — underflow is shown impossible for properly nested sequences). -/
def regStep (c : Nat) : RegEvent → Nat
| .connect => c + 1
| .disconnect => c - 1

/-- Run a sequence of registry events from a starting count. -/
def runReg (c : Nat) (es : List RegEvent) : Nat := es.foldl regStep c

/-- Every prefix has at least as many connects as disconnects: each
connection's increment precedes its decrement. -/
def ProperlyNested (es : List RegEvent) : Prop :=
  ∀ k, k ≤ es.length →
    (es.take k).count RegEvent.disconnect ≤ (es.take k).count RegEvent.connect

instance (es : List RegEvent) : Decidable (ProperlyNested es) := by
  unfold ProperlyNested
  infer_instance

/-- A value in serde's data model as serde_json's serializer receives it. A
`#[derive(Serialize)]` struct arrives as a map from field-name strings to
field values; serde in general also allows non-string map keys, which is
exactly the case serde_json's serializer rejects. -/
inductive SValue
| num (n : Nat)
| str (s : String)
| jbool (b : Bool)
| arr (elems : List SValue)
| map (entries : List (SValue × SValue))
deriving Repr

/-- Quote a JSON string. Character escaping is elided: the strings this
program serializes (field names, an RFC 3339 timestamp) contain no
characters that need escaping. -/
def jquote (s : String) : String := "\"" ++ s ++ "\""

/-- Comma-join rendered JSON fragments. -/
def joinComma : List String → String
| [] => ""
| [x] => x
| x :: y :: xs => x ++ "," ++ joinComma (y :: xs)

mutual

/-- `serde_json` serialization of a serde value: total on everything except
maps with a non-string key, the one error case reachable from a plain data
value. -/
def serializeVal : SValue → Except String String
| .num n => .ok (toString n)
| .str s => .ok (jquote s)
| .jbool true => .ok "true"
| .jbool false => .ok "false"
| .arr es => do
    let ps ← serializeElems es
    .ok ("[" ++ joinComma ps ++ "]")
| .map kvs => do
    let ps ← serializeEntries kvs
    .ok ("\x7b" ++ joinComma ps ++ "\x7d")

/-- Serialize the elements of a JSON array. -/
def serializeElems : List SValue → Except String (List String)
| [] => .ok []
| v :: vs => do
    let s ← serializeVal v
    let ss ← serializeElems vs
    .ok (s :: ss)

/-- Serialize the entries of a JSON object; fails on a non-string key. -/
def serializeEntries : List (SValue × SValue) → Except String (List String)
| [] => .ok []
| (SValue.str k, v) :: kvs => do
    let s ← serializeVal v
    let ss ← serializeEntries kvs
    .ok ((jquote k ++ ":" ++ s) :: ss)
| (_, _) :: _ => .error "key must be a string"

end

/-- The `Response` struct (lines 33-39). The `DateTime<Utc>` field is
abstracted to its RFC 3339 rendering, the string chrono hands to serde. -/
structure Response where
  clients_count : Nat
  date_time : String
  is_up : Bool
deriving DecidableEq, Repr

/-- The serde value `#[derive(Serialize)]` emits for a `Response`,
including the `#[serde(rename = "dateTime")]` on `date_time` (line 36). -/
def Response.toSValue (r : Response) : SValue :=
  .map [(.str "clients_count", .num r.clients_count),
        (.str "dateTime", .str r.date_time),
        (.str "is_up", .jbool r.is_up)]

/-- `serde_json::to_string(&response)` (line 67). -/
def serializeResponse (r : Response) : Except String String :=
  serializeVal r.toSValue

/-- How one iteration of the publisher loop (lines 58-74) ends. -/
inductive CycleExit
| next        -- reached the end of the body; sleeps and loops again
| breakClean  -- tx.send returned Err (all receivers dropped): `break`
| panicked    -- the serialization `.unwrap()` (line 67) failed
deriving DecidableEq, Repr

/-- Inputs one iteration of the publisher loop reads from its environment. -/
structure CycleInput where
  probe : ProbeOutcome   -- outcome of client.get(uri).await   (line 59)
  clientsCount : Nat     -- state.clients_count read under the lock (line 63)
  now : String           -- Utc::now(), as its RFC 3339 rendering (line 64)
  receiversAlive : Bool  -- whether the watch channel still has receivers
deriving Repr

/-- What one iteration of the publisher loop did. The loop body never
writes `clients_count`: line 63 only reads it under the lock, so the
registry value after the cycle is the value that was read. -/
structure CycleResult where
  sent : Option Message  -- the message handed to tx.send, if reached
  registryAfter : Nat    -- clients_count after the cycle (never written)
  exit : CycleExit
deriving Repr

/-- One iteration of the publisher loop (lines 58-74): classify the probe
with `is_ok`, build the `Response`, serialize it (`unwrap` panics on a
serialization error), send it into the watch channel and `break` exactly
when `send` reports every receiver gone; otherwise sleep and continue. -/
def publisherCycle (inp : CycleInput) : CycleResult :=
  let is_up := probeIsUp inp.probe
  let response : Response := ⟨inp.clientsCount, inp.now, is_up⟩
  match serializeResponse response with
  | .error _ => ⟨none, inp.clientsCount, .panicked⟩
  | .ok msg =>
    if inp.receiversAlive then ⟨some (.text msg), inp.clientsCount, .next⟩
    else ⟨some (.text msg), inp.clientsCount, .breakClean⟩

/-- The observable actions of one iteration of the publisher loop, in
program order: probe (line 59), registry read (line 63),
construct-and-serialize (lines 62-67), publish (line 69), sleep (line 73). -/
inductive PubAction
| probe
| readRegistry
| buildSerialize
| publishMsg
| sleepPause
deriving DecidableEq, Repr

/-- The loop body's actions in the order the source executes them: the
sleep is the last statement of the body (line 73), not the first. -/
def cycleActions : List PubAction :=
  [.probe, .readRegistry, .buildSerialize, .publishMsg, .sleepPause]

/-- Action trace of the first `n` iterations of the publisher loop,
assuming the channel stays open (in the program `State` holds a receiver
for the whole process lifetime, so `tx.send` never fails). -/
def publisherTrace : Nat → List PubAction
| 0 => []
| n + 1 => cycleActions ++ publisherTrace n

/-- The two tasks spawned by `websocket()`: the outbound relay task
(line 109) and the inbound drain task (line 120). -/
inductive TaskId
| sendTask
| recvTask
deriving DecidableEq, Repr

/-- The other task of the pair. -/
def sibling : TaskId → TaskId
| .sendTask => .recvTask
| .recvTask => .sendTask

/-- Observable events of one call of `websocket()` (lines 98-134). -/
inductive GwEvent
| register            -- clients_count += 1   (line 104)
| cursorCloned        -- state.rx.clone()     (line 105)
| spawned (t : TaskId)   -- tokio::spawn      (lines 109, 120)
| finished (t : TaskId)  -- the select! arm that fired (lines 127-130)
| aborted (t : TaskId)   -- .abort() on the other task
| deregister          -- clients_count -= 1   (line 133)
deriving DecidableEq, Repr

/-- Straight-line event trace of one call of `websocket()`, parameterized
by which task the `select!` saw finish first. Whatever `first` is, the
other task is aborted (not awaited) and the decrement runs exactly once
afterwards. -/
def gatewayTrace (first : TaskId) : List GwEvent :=
  [.register, .cursorCloned, .spawned .sendTask, .spawned .recvTask,
   .finished first, .aborted (sibling first), .deregister]

/-! Shared helper lemmas. -/

/-- Closed form of serializing a `Response`. -/
theorem serializeResponse_closed (cc : Nat) (dt : String) (b : Bool) :
    serializeResponse ⟨cc, dt, b⟩ =
      Except.ok ("\x7b" ++
        ((jquote "clients_count" ++ ":" ++ toString cc) ++ "," ++
         ((jquote "dateTime" ++ ":" ++ jquote dt) ++ "," ++
          (jquote "is_up" ++ ":" ++ cond b "true" "false"))) ++ "\x7d") := by
  cases b <;> rfl

/-- Serializing a `Response` always succeeds. -/
theorem serializeResponse_ok (r : Response) :
    ∃ s, serializeResponse r = Except.ok s := by
  obtain ⟨cc, dt, b⟩ := r
  exact ⟨_, serializeResponse_closed cc dt b⟩

/-- Any string `serde_json::to_string(&response)` produces has length at
least 3, so it is never the two-character placeholder `{}`. -/
theorem serializeResponse_length (r : Response) (s : String)
    (h : serializeResponse r = Except.ok s) : 3 ≤ s.length := by
  obtain ⟨cc, dt, b⟩ := r
  rw [serializeResponse_closed] at h
  injection h with h
  subst h
  simp only [String.length_append]
  have h1 : ("," : String).length = 1 := rfl
  have h2 : ("\x7b" : String).length = 1 := rfl
  have h3 : ("\x7d" : String).length = 1 := rfl
  rw [h1, h2, h3]
  omega

/-- A sequence of sends bumps the version once per send. -/
theorem sendAll_version (c : WatchCell) (vs : List Message) :
    (c.sendAll vs).version = c.version + vs.length := by
  induction vs generalizing c with
  | nil => rfl
  | cons v vs ih =>
    show ((c.send v).sendAll vs).version = _
    rw [ih]
    simp [WatchCell.send]
    omega

/-- After a nonempty sequence of sends the cell holds the last value sent. -/
theorem sendAll_getLast (c : WatchCell) (vs : List Message) (h : vs ≠ []) :
    vs.getLast? = some (c.sendAll vs).value := by
  induction vs generalizing c with
  | nil => cases h rfl
  | cons v vs ih =>
    cases vs with
    | nil => rfl
    | cons w ws =>
      rw [List.getLast?_cons_cons]
      exact ih (c.send v) (by simp)

/-- Dropping a full cycle of actions off the front of the trace. -/
theorem drop_cycleActions (l : List PubAction) (k : Nat) :
    (cycleActions ++ l).drop (k + 5) = l.drop k := by
  have h : k + 5 = ((((k + 1) + 1) + 1) + 1) + 1 := by omega
  rw [h]
  rfl

/-- Dropping `i` full cycles off the trace of `n` cycles leaves the trace
of the remaining `n - i` cycles. -/
theorem publisherTrace_drop (i : Nat) : ∀ n : Nat, i < n →
    (publisherTrace n).drop (5 * i) = publisherTrace (n - i) := by
  induction i with
  | zero => intro n _; simp
  | succ i ih =>
    intro n hn
    cases n with
    | zero => omega
    | succ m =>
      have h5 : 5 * (i + 1) = 5 * i + 5 := by ring
      rw [h5]
      show (cycleActions ++ publisherTrace m).drop (5 * i + 5) = _
      rw [drop_cycleActions, ih m (by omega)]
      congr 1
      omega

/-- Accumulator-generalized registry count identity: if every prefix keeps
disconnects within `c +` connects, the run from `c` lands on
`c + connects - disconnects` (stated additively to stay in `Nat`). -/
theorem runReg_general (es : List RegEvent) : ∀ c : Nat,
    (∀ k, k ≤ es.length →
      (es.take k).count RegEvent.disconnect ≤ c + (es.take k).count RegEvent.connect) →
    runReg c es + es.count RegEvent.disconnect = c + es.count RegEvent.connect := by
  induction es with
  | nil => intro c _; simp [runReg]
  | cons e es ih =>
    intro c h
    cases e with
    | connect =>
      have h' : ∀ k, k ≤ es.length →
          (es.take k).count RegEvent.disconnect ≤ (c + 1) + (es.take k).count RegEvent.connect := by
        intro k hk
        have h2 := h (k + 1) (by simpa using Nat.succ_le_succ hk)
        simp [List.take_succ_cons, List.count_cons] at h2
        omega
      have hm := ih (c + 1) h'
      show runReg (regStep c .connect) es + (RegEvent.connect :: es).count RegEvent.disconnect
          = c + (RegEvent.connect :: es).count RegEvent.connect
      simp [regStep, List.count_cons] at hm ⊢
      omega
    | disconnect =>
      have hc : 1 ≤ c := by
        have h1 := h 1 (by simp)
        simp [List.take_succ_cons, List.count_cons] at h1
        omega
      have h' : ∀ k, k ≤ es.length →
          (es.take k).count RegEvent.disconnect ≤ (c - 1) + (es.take k).count RegEvent.connect := by
        intro k hk
        have h2 := h (k + 1) (by simpa using Nat.succ_le_succ hk)
        simp [List.take_succ_cons, List.count_cons] at h2
        omega
      have hm := ih (c - 1) h'
      show runReg (regStep c .disconnect) es + (RegEvent.disconnect :: es).count RegEvent.disconnect
          = c + (RegEvent.disconnect :: es).count RegEvent.connect
      simp [regStep, List.count_cons] at hm ⊢
      omega

/-! Claim theorems. -/

/-- C1: whichever of the two tasks the `select!` sees finish first, the
trace of `websocket()` aborts exactly the sibling task (never the finisher)
immediately after the finish, and then decrements the Session Registry
exactly once, as its final event — never zero and never two decrements. -/
theorem gateway_paired_cancel_single_decrement (first : TaskId) :
    (gatewayTrace first).count GwEvent.deregister = 1 ∧
    (gatewayTrace first).count (GwEvent.aborted (sibling first)) = 1 ∧
    (gatewayTrace first).count (GwEvent.aborted first) = 0 ∧
    (gatewayTrace first)[4]? = some (GwEvent.finished first) ∧
    (gatewayTrace first)[5]? = some (GwEvent.aborted (sibling first)) ∧
    (gatewayTrace first).getLast? = some GwEvent.deregister := by
  cases first <;> decide

/-- C2: for any properly nested event sequence (every decrement preceded by
its matching increment), after any prefix the counter equals connects minus
disconnects — stated additively over `Nat` and as a subtraction over `Int`,
where it is visibly non-negative — and disconnects never exceed connects,
so the `usize` decrement never underflows. -/
theorem registry_count_matches_connects_minus_disconnects
    (es : List RegEvent) (k : Nat) (h : ProperlyNested es) :
    runReg 0 (es.take k) + (es.take k).count RegEvent.disconnect
        = (es.take k).count RegEvent.connect ∧
    (es.take k).count RegEvent.disconnect ≤ (es.take k).count RegEvent.connect ∧
    (runReg 0 (es.take k) : Int)
        = ((es.take k).count RegEvent.connect : Int)
          - ((es.take k).count RegEvent.disconnect : Int) := by
  have hp : ∀ j, j ≤ (es.take k).length →
      ((es.take k).take j).count RegEvent.disconnect
        ≤ 0 + ((es.take k).take j).count RegEvent.connect := by
    intro j hj
    rw [List.take_take]
    have hlen : min j k ≤ es.length := by
      have h1 : (es.take k).length = min k es.length := List.length_take k es
      omega
    simpa using h (min j k) hlen
  have hmain := runReg_general (es.take k) 0 hp
  refine ⟨by omega, by omega, by omega⟩

/-- C3 counterexample: a successfully read Binary message is neither an end
of stream nor an error, yet the drain loop's `while let
Some(Ok(Message::Text(..)))` head does not match it, so the loop exits. -/
theorem drain_loop_exits_on_non_text :
    drainLoopContinues (some (Except.ok (Message.binary []))) = false ∧
    readEndOrError (some (Except.ok (Message.binary []))) = false := by
  decide

/-- C3 amended: the drain loop continues exactly on a successfully read
Text message — so no Text content ever ends it — and exits on end of
stream, on an error, and also on any successfully read non-Text message. -/
theorem drain_loop_continues_iff_text (r : ReadResult) :
    (drainLoopContinues r = true ↔ ∃ s, r = some (Except.ok (Message.text s))) ∧
    (∀ s, drainLoopContinues (some (Except.ok (Message.text s))) = true) := by
  constructor
  · cases r with
    | none => simp [drainLoopContinues]
    | some e =>
      cases e with
      | error _ => simp [drainLoopContinues]
      | ok m => cases m <;> simp [drainLoopContinues]
  · intro s
    rfl

/-- C5: after any nonempty burst of `N` sends performed while a subscriber
was not polling, that subscriber's next read returns exactly the `N`-th
(last) value sent — never an earlier one — and advances its cursor to the
new version. The producer side (`WatchCell.send`) is a total function of
the cell alone, so no subscriber can block it. -/
theorem watch_latest_value_wins (c : WatchCell) (rx : WReceiver)
    (vs : List Message) (hseen : rx.seen ≤ c.version) (hne : vs ≠ []) :
    ∃ m, vs.getLast? = some m ∧
      rx.awaitChange (c.sendAll vs) = some (m, ⟨c.version + vs.length⟩) := by
  refine ⟨(c.sendAll vs).value, sendAll_getLast c vs hne, ?_⟩
  have hlen : 1 ≤ vs.length := by
    cases vs with
    | nil => cases hne rfl
    | cons v vs => simp
  simp only [WReceiver.awaitChange, sendAll_version]
  rw [if_pos (by omega)]

/-- Witness for C5 at a concrete burst of two sends into the initial cell. -/
theorem watch_latest_value_wins_witness :
    (⟨0⟩ : WReceiver).seen ≤ initialCell.version ∧
    ([Message.text "a", Message.text "b"] ≠ ([] : List Message)) ∧
    ∃ m, [Message.text "a", Message.text "b"].getLast? = some m ∧
      WReceiver.awaitChange ⟨0⟩
          (initialCell.sendAll [Message.text "a", Message.text "b"])
        = some (m, ⟨initialCell.version + [Message.text "a", Message.text "b"].length⟩) :=
  ⟨by decide, by decide,
    watch_latest_value_wins initialCell ⟨0⟩ [Message.text "a", Message.text "b"]
      (by decide) (by decide)⟩

/-- C6: the published flag is `is_ok` of the probe: true exactly when the
exchange completed without a transport-level error; the status code is
never inspected — the flag is the same for every completed status, and a
completed exchange with status 500 still counts as up. -/
theorem probe_health_ignores_status :
    (∀ p : ProbeOutcome, probeIsUp p = true ↔ p ≠ ProbeOutcome.transportFailure) ∧
    (∀ s t : Nat, probeIsUp (.completed s) = probeIsUp (.completed t)) ∧
    probeIsUp (.completed 500) = true := by
  refine ⟨?_, fun _ _ => rfl, rfl⟩
  intro p
  cases p <;> simp [probeIsUp]

/-- C7: a transport-level probe failure in a cycle is absorbed: the cycle
still publishes a snapshot, that snapshot carries `is_up = false` and the
unchanged client count, the registry is not written, and the loop proceeds
to the next cycle (given the channel still has receivers, as it does for
the whole process lifetime). -/
theorem probe_failure_only_flips_flag (cc : Nat) (now : String) :
    (publisherCycle ⟨ProbeOutcome.transportFailure, cc, now, true⟩).exit
        = CycleExit.next ∧
    (publisherCycle ⟨ProbeOutcome.transportFailure, cc, now, true⟩).registryAfter
        = cc ∧
    ∃ s, serializeResponse ⟨cc, now, false⟩ = Except.ok s ∧
      (publisherCycle ⟨ProbeOutcome.transportFailure, cc, now, true⟩).sent
          = some (Message.text s) :=
  ⟨rfl, rfl, _, rfl, rfl⟩

/-- C8: one iteration of the publisher loop reaches `break` exactly when
`tx.send` reports every receiver gone; it continues to the next iteration
exactly when the channel is still open; and it never panics, because the
serialization `.unwrap()` never sees an error. -/
theorem publisher_stops_iff_channel_closed (inp : CycleInput) :
    ((publisherCycle inp).exit = CycleExit.breakClean ↔ inp.receiversAlive = false) ∧
    ((publisherCycle inp).exit = CycleExit.next ↔ inp.receiversAlive = true) ∧
    (publisherCycle inp).exit ≠ CycleExit.panicked := by
  obtain ⟨p, cc, now, alive⟩ := inp
  obtain ⟨s, hs⟩ := serializeResponse_ok ⟨cc, now, probeIsUp p⟩
  simp only [publisherCycle, hs]
  cases alive <;> simp

/-- C9: serializing the per-cycle `Response` value never fails, for every
`Response` value, so the error branch of the `.unwrap()` on
`serde_json::to_string` (line 67) is unreachable. -/
theorem response_serialization_total (r : Response) :
    ∃ s, serializeResponse r = Except.ok s :=
  serializeResponse_ok r

/-- C10 counterexample: one message is published before a client connects;
the connection's receiver is a clone of `State.rx` with seen version 0, so
`rx.changed()` resolves at once on the cell's current version 1 — which is
not newer than the version current at subscription (also 1) — and the relay
forwards the pre-subscription message with no publish after subscription,
contrary to "receives its first message only when the Publisher next
publishes". -/
theorem fresh_client_receives_pre_subscription_value :
    connectionRx.seen = 0 ∧
    (initialCell.send (Message.text "m1")).version = 1 ∧
    WReceiver.awaitChange connectionRx (initialCell.send (Message.text "m1"))
      = some (Message.text "m1", ⟨1⟩) := by
  decide

/-- C10 amended: the channel starts with the placeholder `Text("{}")`, and
no client ever receives it: the cloned receiver's seen version is the
placeholder's version 0, so its first read either returns nothing (no
publish yet) or the latest published message — delivered immediately if a
publish already happened, otherwise when the Publisher next publishes;
moreover every publisher message is a serialized `Response`, which is never
the placeholder. -/
theorem fresh_client_never_receives_placeholder :
    (∀ published : List Message,
      (published = [] ∧
        WReceiver.awaitChange connectionRx (initialCell.sendAll published) = none) ∨
      (∃ m, published.getLast? = some m ∧
        WReceiver.awaitChange connectionRx (initialCell.sendAll published)
          = some (m, ⟨published.length⟩))) ∧
    (∀ (r : Response) (s : String),
      serializeResponse r = Except.ok s → Message.text s ≠ placeholder) := by
  constructor
  · intro published
    cases published with
    | nil => exact Or.inl ⟨rfl, rfl⟩
    | cons v vs =>
      refine Or.inr ⟨(initialCell.sendAll (v :: vs)).value,
        sendAll_getLast initialCell (v :: vs) (by simp), ?_⟩
      simp [WReceiver.awaitChange, sendAll_version, initialCell,
        connectionRx, stateRx, WReceiver.cloneRx]
  · intro r s h hcontra
    have hlen := serializeResponse_length r s h
    have : s = "\x7b\x7d" := by
      simpa [placeholder] using hcontra
    rw [this] at hlen
    have : ("\x7b\x7d" : String).length = 2 := rfl
    omega

/-- Witness for C10 at a concrete `Response`, discharging the
serialization hypothesis concretely. -/
theorem fresh_client_never_receives_placeholder_witness :
    serializeResponse ⟨0, "t", true⟩
        = Except.ok "\x7b\"clients_count\":0,\"dateTime\":\"t\",\"is_up\":true\x7d" ∧
    Message.text "\x7b\"clients_count\":0,\"dateTime\":\"t\",\"is_up\":true\x7d"
        ≠ placeholder :=
  ⟨by rfl,
    fresh_client_never_receives_placeholder.2 ⟨0, "t", true⟩
      "\x7b\"clients_count\":0,\"dateTime\":\"t\",\"is_up\":true\x7d" (by rfl)⟩

/-- Witness for C2 at a concrete properly nested six-event sequence. -/
theorem registry_count_witness :
    ProperlyNested [RegEvent.connect, RegEvent.connect, RegEvent.disconnect,
      RegEvent.connect, RegEvent.disconnect, RegEvent.disconnect] ∧
    (runReg 0 ([RegEvent.connect, RegEvent.connect, RegEvent.disconnect,
        RegEvent.connect, RegEvent.disconnect, RegEvent.disconnect].take 4)
      + ([RegEvent.connect, RegEvent.connect, RegEvent.disconnect,
          RegEvent.connect, RegEvent.disconnect, RegEvent.disconnect].take 4).count
            RegEvent.disconnect
      = ([RegEvent.connect, RegEvent.connect, RegEvent.disconnect,
          RegEvent.connect, RegEvent.disconnect, RegEvent.disconnect].take 4).count
            RegEvent.connect ∧
     ([RegEvent.connect, RegEvent.connect, RegEvent.disconnect,
        RegEvent.connect, RegEvent.disconnect, RegEvent.disconnect].take 4).count
          RegEvent.disconnect
        ≤ ([RegEvent.connect, RegEvent.connect, RegEvent.disconnect,
            RegEvent.connect, RegEvent.disconnect, RegEvent.disconnect].take 4).count
              RegEvent.connect ∧
     (runReg 0 ([RegEvent.connect, RegEvent.connect, RegEvent.disconnect,
          RegEvent.connect, RegEvent.disconnect, RegEvent.disconnect].take 4) : Int)
        = (([RegEvent.connect, RegEvent.connect, RegEvent.disconnect,
             RegEvent.connect, RegEvent.disconnect, RegEvent.disconnect].take 4).count
              RegEvent.connect : Int)
          - (([RegEvent.connect, RegEvent.connect, RegEvent.disconnect,
               RegEvent.connect, RegEvent.disconnect, RegEvent.disconnect].take 4).count
                RegEvent.disconnect : Int)) :=
  ⟨by decide,
    registry_count_matches_connects_minus_disconnects
      [RegEvent.connect, RegEvent.connect, RegEvent.disconnect,
       RegEvent.connect, RegEvent.disconnect, RegEvent.disconnect] 4 (by decide)⟩

/-- C4 counterexample: the very first action of the publisher loop's run is
the health probe, not the sleep — the loop body sleeps last (line 73), so
the first cycle probes and publishes immediately. -/
theorem publisher_first_action_not_sleep :
    (publisherTrace 1).head? = some PubAction.probe ∧
    (publisherTrace 1).head? ≠ some PubAction.sleepPause := by
  decide

/-- C4 amended: in every cycle of the publisher loop the steps occur in the
order probe, registry read, construct-and-serialize, publish, sleep — the
sleep ends the cycle rather than beginning it, so the first cycle starts
with an immediate probe. -/
theorem publisher_cycle_action_order (n i : Nat) (h : i < n) :
    (publisherTrace n).get? (5 * i) = some PubAction.probe ∧
    (publisherTrace n).get? (5 * i + 1) = some PubAction.readRegistry ∧
    (publisherTrace n).get? (5 * i + 2) = some PubAction.buildSerialize ∧
    (publisherTrace n).get? (5 * i + 3) = some PubAction.publishMsg ∧
    (publisherTrace n).get? (5 * i + 4) = some PubAction.sleepPause := by
  have hd := publisherTrace_drop i n h
  have hsub : n - i = (n - i - 1) + 1 := by omega
  have e : (publisherTrace n).drop (5 * i)
      = cycleActions ++ publisherTrace (n - i - 1) := by
    rw [hd, hsub]
    rfl
  have key : ∀ j : Nat, (publisherTrace n).get? (5 * i + j)
      = (cycleActions ++ publisherTrace (n - i - 1)).get? j := by
    intro j
    rw [List.get?_eq_getElem?, List.get?_eq_getElem?, ← e, List.getElem?_drop]
  refine ⟨?_, (key 1).trans (by rfl), (key 2).trans (by rfl),
    (key 3).trans (by rfl), (key 4).trans (by rfl)⟩
  have h0 := (key 0).trans
    (show (cycleActions ++ publisherTrace (n - i - 1)).get? 0
        = some PubAction.probe by rfl)
  simpa using h0

/-- Witness for C4 at the second cycle of a two-cycle trace. -/
theorem publisher_cycle_action_order_witness :
    (1 : Nat) < 2 ∧
    ((publisherTrace 2).get? (5 * 1) = some PubAction.probe ∧
     (publisherTrace 2).get? (5 * 1 + 1) = some PubAction.readRegistry ∧
     (publisherTrace 2).get? (5 * 1 + 2) = some PubAction.buildSerialize ∧
     (publisherTrace 2).get? (5 * 1 + 3) = some PubAction.publishMsg ∧
     (publisherTrace 2).get? (5 * 1 + 4) = some PubAction.sleepPause) :=
  ⟨by decide, publisher_cycle_action_order 2 1 (by decide)⟩

end WsStatus
